import Mathlib

/-!
Verification of the pywincffi module-acquisition subsystem (`pywincffi/core/dist.py`)
and the call contract of `pywincffi/shell32/security.py`, by a shallow embedding:
Python functions become Lean functions over an explicit process state, effects are
recorded in an event trace, and raised exceptions become `Except` errors.
-/

namespace PyWinCFFI

/-- Python values, restricted to the shapes the verified call sites use. -/
inductive PyVal
  | int (n : Int)
  | str (s : String)
  | pynone
deriving DecidableEq, Repr

/-- The `allowed_values` argument of `input_check`: either an ordered sequence
(list/tuple) of values, or any other (non-sequence) Python value. -/
inductive AVal
  | seq (xs : List PyVal)
  | nonseq (v : PyVal)
deriving DecidableEq, Repr

/-- Exceptions raised by the embedded code.  `importError b` models Python's
`ImportError`, with `b = true` when the failure is specifically
"module not found" (`ModuleNotFoundError`) and `b = false` for any other
`ImportError` (for example a found extension whose dynamic load fails). -/
inductive PyErr
  | importError (moduleNotFound : Bool)
  | resourceNotFound (message : String)
  | windowsAPIError (function : String) (code : Int) (message : String)
  | inputError (name : String) (value : PyVal) (allowed : List PyVal) (message : String)
  | assertionError
  | notImplementedError
  | osError (errno : Int)
  | buildError (tag : String)
deriving DecidableEq, Repr

/-- `errno.ENOENT`. -/
def ENOENT : Int := 2

/-- `errno.EISDIR`: opening a directory for reading fails with this code. -/
def EISDIR : Int := 21

/-- A filesystem node: a regular file with its text content, or a directory. -/
inductive FNode
  | file (content : String)
  | dir
deriving DecidableEq, Repr

/-- The filesystem visible to the embedded code: a finite map path → node. -/
abbrev FS := List (String × FNode)

/-- Look a path up in the filesystem. -/
def FS.lookup (fs : FS) (p : String) : Option FNode :=
  match fs with
  | [] => none
  | (q, n) :: rest => if q = p then some n else FS.lookup rest p

/-- `os.path.isfile`: the path names an existing regular file. -/
def isfile (fs : FS) (p : String) : Bool :=
  match fs.lookup p with
  | some (.file _) => true
  | _ => false

/-- `open(path, "r").read()`: contents on success, `IOError` with an errno
otherwise (`ENOENT` when the path does not exist, `EISDIR` for a directory). -/
def readFile (fs : FS) (p : String) : Except PyErr String :=
  match fs.lookup p with
  | none => .error (.osError ENOENT)
  | some (.file s) => .ok s
  | some .dir => .error (.osError EISDIR)

/-- Which process output stream an effect touched. -/
inductive StreamId
  | stdout
  | stderr
deriving DecidableEq, Repr

/-- Observable effects, in the order they are performed. -/
inductive Event
  | fsOpen (path : String)          -- a definition fragment opened for reading
  | importNative                    -- the `import _pywincffi` statement ran
  | warnMulti                       -- warnings.warn("Module() was instanced multiple times")
  | mkdtempEv (path : String)       -- tempfile.mkdtemp(prefix="pywincffi-")
  | mkstempEv                       -- tempfile.mkstemp() inside _silence
  | dupFd (s : StreamId)            -- os.dup of the stream's descriptor
  | flushStream (s : StreamId)      -- stream.flush()
  | redirectFd (s : StreamId)       -- os.dup2(tempfd, stream_fd)
  | restoreFd (s : StreamId)        -- os.dup2(copied, stream_fd)
  | fsyncEv                         -- os.fsync(tempfd)
  | closeTempFd                     -- os.close(tempfd)
  | closeDupFd                      -- the `with os.fdopen(...)` block closes the dup
  | ffiCompileEv                    -- ffi.compile(tmpdir=...): the external build
  | writeStderr (s : String)        -- print(..., file=sys.stderr)
  | removeFile (path : String)      -- os.remove
  | rmtreeEv (path : String)        -- shutil.rmtree(..., ignore_errors=True)
  | loadExtension (path : String)   -- ExtensionFileLoader(...).load_module(...)
  | impLoad (path : String)         -- imp.load_dynamic(...)
deriving DecidableEq, Repr

/-- The native module object produced by an import (`_pywincffi` or a compiled
pyd), identified abstractly.  It carries `ffi` and `lib` members. -/
structure NativeModule where
  id : Nat
deriving DecidableEq, Repr

/-- `dist.Module`: a loaded native module plus its provenance string
(`"prebuilt"` or `"compiled"`), as stored in `Module.cache`. -/
structure Module where
  module : NativeModule
  mode : String
deriving DecidableEq, Repr

/-- Where the stdout descriptor currently points. -/
inductive Target
  | console     -- the original destination of sys.stdout
  | tempfile    -- the mkstemp capture file installed by _silence
deriving DecidableEq, Repr

/-- Process state threaded through the embedded functions. -/
structure St where
  cache : Option Module   -- the class attribute Module.cache
  fs : FS
  stdoutTarget : Target   -- current destination of sys.stdout's descriptor
  stdoutBuf : String      -- sys.stdout's userspace (Python-level) buffer
  consoleOut : String     -- bytes that reached the original stdout destination
  tempOut : String        -- content of the _silence capture file
  tempExists : Bool       -- the capture file still exists on disk
  dupOpen : Bool          -- the duplicated original descriptor is open
  tempFdOpen : Bool       -- the mkstemp descriptor is open
  stderrContent : String  -- bytes written to sys.stderr (never redirected)
deriving DecidableEq, Repr

instance {ε α : Type} [DecidableEq ε] [DecidableEq α] : DecidableEq (Except ε α) :=
  fun a b =>
    match a, b with
    | .ok x, .ok y =>
      if h : x = y then isTrue (by rw [h]) else isFalse (fun hc => by cases hc; exact h rfl)
    | .error x, .error y =>
      if h : x = y then isTrue (by rw [h]) else isFalse (fun hc => by cases hc; exact h rfl)
    | .ok _, .error _ => isFalse (fun hc => by cases hc)
    | .error _, .ok _ => isFalse (fun hc => by cases hc)

/-- Outcome of the `import _pywincffi` statement. -/
inductive ImportOutcome
  | ok (m : NativeModule)
  | raise (e : PyErr)
deriving DecidableEq, Repr

/-- The external world the acquisition path consults: the import machinery
and the cffi build toolchain.  `rmtreeFails` records whether the best-effort
temp-directory removal would fail; `shutil.rmtree` is invoked with
`ignore_errors=True`, so nothing in the code reads this outcome. -/
structure Env where
  importPywincffi : ImportOutcome
  ffiCompile : Except PyErr String       -- pyd path, or the build exception
  compileOutput : String                 -- build noise written to the stdout fd
  mkdtempPath : String
  mkstempPath : String
  hasExtensionFileLoader : Bool
  hasImp : Bool
  loadExtensionResult : Except PyErr NativeModule
  impLoadResult : Except PyErr NativeModule
  rmtreeFails : Bool
deriving DecidableEq, Repr

/-- `MODULE_NAME = "_pywincffi"`. -/
def MODULE_NAME : String := "_pywincffi"

/-- `HEADER_FILES`: the fixed, ordered declaration fragment list. -/
def HEADER_FILES : List String :=
  [ "pywincffi/core/cdefs/headers/constants.h"
  , "pywincffi/core/cdefs/headers/structs.h"
  , "pywincffi/core/cdefs/headers/functions.h" ]

/-- `SOURCE_FILES`: the fixed, ordered implementation fragment list. -/
def SOURCE_FILES : List String :=
  [ "pywincffi/core/cdefs/sources/main.c" ]

/-- `dist._read(*paths)`: concatenate the files' contents in order; a file
whose open fails with `ENOENT` raises `ResourceNotFoundError` naming it; any
other `OSError` is re-raised unchanged. -/
def _read (fs : FS) : List String → Except PyErr String × List Event
  | [] => (.ok "", [])
  | p :: ps =>
    match readFile fs p with
    | .ok s =>
      match _read fs ps with
      | (.ok rest, evs) => (.ok (s ++ rest), .fsOpen p :: evs)
      | (.error e, evs) => (.error e, .fsOpen p :: evs)
    | .error (.osError n) =>
      if n = ENOENT then
        (.error (.resourceNotFound ("Failed to locate " ++ p)), [.fsOpen p])
      else
        (.error (.osError n), [.fsOpen p])
    | .error e => (.error e, [.fsOpen p])

/-- Wrap a string in the single-quote characters Python `repr` (and the `%r`
format) puts around it. -/
def pyQuote (s : String) : String :=
  (Char.ofNat 39).toString ++ s ++ (Char.ofNat 39).toString

/-- `stream.flush()` for sys.stdout: move the userspace buffer to whatever the
stream's descriptor currently points at. -/
def flushStdout (st : St) : St :=
  match st.stdoutTarget with
  | .console => { st with consoleOut := st.consoleOut ++ st.stdoutBuf, stdoutBuf := "" }
  | .tempfile => { st with tempOut := st.tempOut ++ st.stdoutBuf, stdoutBuf := "" }

/-- `dist._silence(sys.stdout)` as a scoped combinator around a protected
region.  On entry: `os.dup` the descriptor, flush, `mkstemp` a capture file and
`dup2` it over the descriptor.  The region runs with the redirection in place.
In the `finally` block (run on every exit path, exceptional included): flush,
restore the original descriptor from the duplicate, fsync and close the
capture descriptor; the surrounding `with os.fdopen(...)` then closes the
duplicate.  The region's result (value or exception) is propagated. -/
def _silence {α : Type} (region : St → Except PyErr α × St × List Event) (st : St) :
    Except PyErr α × St × List Event :=
  -- with os.fdopen(os.dup(silence_fd), "wb") as copied:
  let st1 : St := { st with dupOpen := true }
  -- silence.flush()  (library buffers dup2 knows nothing about)
  let st2 : St := flushStdout st1
  -- fd, path = tempfile.mkstemp()
  let st3 : St := { st2 with tempFdOpen := true, tempExists := true, tempOut := "" }
  -- os.dup2(fd, silence_fd)
  let st4 : St := { st3 with stdoutTarget := .tempfile }
  -- yield path  (run the protected region)
  let r := region st4
  -- finally: silence.flush(); os.dup2(copied.fileno(), silence_fd);
  --          os.fsync(fd); os.close(fd); then the with-block closes `copied`
  let st6 : St := flushStdout r.2.1
  let st7 : St := { st6 with stdoutTarget := .console }
  let st8 : St := { st7 with tempFdOpen := false }
  let st9 : St := { st8 with dupOpen := false }
  (r.1, st9,
    [.dupFd .stdout, .flushStream .stdout, .mkstempEv, .redirectFd .stdout]
      ++ r.2.2
      ++ [.flushStream .stdout, .restoreFd .stdout, .fsyncEv, .closeTempFd, .closeDupFd])

/-- `dist._import_path(path, module_name=None)`: raise `ResourceNotFoundError`
naming the path unless it is an existing regular file; otherwise load it with
`ExtensionFileLoader` when available, else `imp.load_dynamic`, else raise
`NotImplementedError`.  The trace records which loader ran. -/
def _import_path (env : Env) (fs : FS) (path : String) :
    Except PyErr NativeModule × List Event :=
  if isfile fs path = false then
    (.error (.resourceNotFound ("Module path " ++ pyQuote path ++ " does not exist")), [])
  else if env.hasExtensionFileLoader then
    (env.loadExtensionResult, [.loadExtension path])
  else if env.hasImp then
    (env.impLoadResult, [.impLoad path])
  else
    (.error .notImplementedError, [])

/-- The `cffi.FFI` object assembled by `dist._ffi`: definition blobs plus the
configuration applied to it. -/
structure FFIObj where
  source : String
  header : String
  moduleName : String
  unicode : Bool
deriving DecidableEq, Repr

/-- `dist._ffi()`: read and concatenate the header fragments and the source
fragments, then build the `FFI` object (`set_unicode(True)`,
`set_source(MODULE_NAME, source)`, `cdef(header)`). -/
def _ffi (fs : FS) : Except PyErr FFIObj × List Event :=
  match _read fs HEADER_FILES with
  | (.error e, evs) => (.error e, evs)
  | (.ok header, evs1) =>
    match _read fs SOURCE_FILES with
    | (.error e, evs2) => (.error e, evs1 ++ evs2)
    | (.ok source, evs2) =>
      (.ok { source := source, header := header
           , moduleName := MODULE_NAME, unicode := true }, evs1 ++ evs2)

/-- The protected region of `_compile`: `ffi.compile(tmpdir=tmpdir)`.  The
external toolchain writes its noise directly to the (redirected) stdout file
descriptor; the call returns the pyd path or raises.  On failure the `except`
handler inside the `_silence` block reads the capture file and replays it to
`sys.stderr` (with `print`'s trailing newline) before re-raising. -/
def compileRegion (env : Env) (st : St) : Except PyErr String × St × List Event :=
  let st1 : St :=
    match st.stdoutTarget with
    | .console => { st with consoleOut := st.consoleOut ++ env.compileOutput }
    | .tempfile => { st with tempOut := st.tempOut ++ env.compileOutput }
  match env.ffiCompile with
  | .ok pyd => (.ok pyd, st1, [.ffiCompileEv])
  | .error e =>
    let captured := st1.tempOut
    (.error e,
     { st1 with stderrContent := st1.stderrContent ++ captured ++ "\n" },
     [.ffiCompileEv, .writeStderr captured])

/-- The body of `dist._compile(ffi, tmpdir=None)` once the build directory
`dir` is fixed: run the build under `_silence(sys.stdout)`, and on success
delete the capture file, import the built pyd with `_import_path`, and
best-effort remove the temp directory (`shutil.rmtree(dir,
ignore_errors=True)` — its outcome is discarded).  A build failure propagates
after the captured output has been replayed to stderr. -/
def _compileBody (env : Env) (dir : String) (st : St) :
    Except PyErr NativeModule × St × List Event :=
  match _silence (compileRegion env) st with
  | (.error e, st1, evs) => (.error e, st1, evs)
  | (.ok pyd, st1, evs) =>
    -- os.remove(out_path), then _import_path(pyd_path), then best-effort rmtree
    match _import_path env st1.fs pyd with
    | (.error e, ievs) =>
      (.error e, { st1 with tempExists := false },
       evs ++ [.removeFile env.mkstempPath] ++ ievs)
    | (.ok m, ievs) =>
      (.ok m, { st1 with tempExists := false },
       evs ++ [.removeFile env.mkstempPath] ++ ievs ++ [.rmtreeEv dir])

/-- `dist._compile(ffi, tmpdir=None)` proper: when `tmpdir` is absent, a fresh
temporary directory is created first (`tempfile.mkdtemp(prefix="pywincffi-")`). -/
def _compile (env : Env) (tmpdir : Option String) (st : St) :
    Except PyErr NativeModule × St × List Event :=
  match tmpdir with
  | some dir => _compileBody env dir st
  | none =>
    match _compileBody env env.mkdtempPath st with
    | (res, st1, evs) => (res, st1, .mkdtempEv env.mkdtempPath :: evs)

/-- `Module.__init__(self, module, mode)`: warn (`RuntimeWarning`, non-fatal)
when `Module.cache` is already populated; construction itself never touches
the cache and always yields the new instance. -/
def moduleInit (nm : NativeModule) (mode : String) (st : St) :
    Module × St × List Event :=
  match st.cache with
  | some _ => ({ module := nm, mode := mode }, st, [.warnMulti])
  | none => ({ module := nm, mode := mode }, st, [])

/-- Does a `PyErr` match Python's `except ImportError` clause?  Both
"module not found" and every other `ImportError` do. -/
def isImportError : PyErr → Bool
  | .importError _ => true
  | _ => false

/-- `dist.load()`: return `Module.cache` when populated; otherwise try
`import _pywincffi` (provenance `"prebuilt"`), and on `ImportError` — any
`ImportError`, caught by class — fall back to
`Module(_compile(_ffi()), "compiled")`.  Every other exception propagates.
The populated cache is returned. -/
def load (env : Env) (st : St) : Except PyErr Module × St × List Event :=
  match st.cache with
  | some m => (.ok m, st, [])
  | none =>
    match env.importPywincffi with
    | .ok nm =>
      match moduleInit nm "prebuilt" st with
      | (m, st1, wevs) => (.ok m, { st1 with cache := some m }, .importNative :: wevs)
    | .raise e =>
      if isImportError e then
        match _ffi st.fs with
        | (.error e2, evs) => (.error e2, st, .importNative :: evs)
        | (.ok _ffiObj, evs) =>
          match _compile env none st with
          | (.error e2, st1, cevs) => (.error e2, st1, .importNative :: (evs ++ cevs))
          | (.ok nm, st1, cevs) =>
            match moduleInit nm "compiled" st1 with
            | (m, st2, wevs) =>
              (.ok m, { st2 with cache := some m },
               .importNative :: (evs ++ cevs ++ wevs))
      else
        (.error e, st, [.importNative])

/-- A protected region that writes `w` to the suppressed stream (through the
stream's buffer, as `print(..., file=sys.stdout)` does) and then finishes with
`res` — `.ok ()` for a normal exit, `.error e` when the region raises. -/
def writeRegion (w : String) (res : Except PyErr Unit) (st : St) :
    Except PyErr Unit × St × List Event :=
  (res, { st with stdoutBuf := st.stdoutBuf ++ w }, [])

/-- One operation performed after the cache may already be populated: a call
to `dist.load()`, or a direct construction `Module(nm, mode)`. -/
inductive Op
  | loadOp
  | constructOp (nm : NativeModule) (mode : String)
deriving DecidableEq, Repr

/-- Is the operation a direct `Module(...)` construction? -/
def isConstruct : Op → Bool
  | .constructOp _ _ => true
  | .loadOp => false

/-- Run a sequence of load calls and construction attempts, collecting the
resulting state and the concatenated event trace. -/
def runOps (env : Env) : List Op → St → St × List Event
  | [], st => (st, [])
  | .loadOp :: rest, st =>
    match load env st with
    | (_res, st1, evs) =>
      match runOps env rest st1 with
      | (st2, evs2) => (st2, evs ++ evs2)
  | .constructOp nm mode :: rest, st =>
    match moduleInit nm mode st with
    | (_m, st1, evs) =>
      match runOps env rest st1 with
      | (st2, evs2) => (st2, evs ++ evs2)

/-- Python `repr` for the embedded values. -/
def pyRepr : PyVal → String
  | .int n => toString n
  | .str s => pyQuote s
  | .pynone => "None"

/-- Python `repr` of a tuple of values (one-element tuples print as `(x,)`). -/
def pyReprTuple (xs : List PyVal) : String :=
  match xs with
  | [x] => "(" ++ pyRepr x ++ ",)"
  | _ => "(" ++ String.intercalate ", " (xs.map pyRepr) ++ ")"

/-- The accepted type-sets used by the verified call sites:
`six.integer_types`. -/
inductive Accepted
  | integerTypes
deriving DecidableEq, Repr

/-- `isinstance(value, six.integer_types)`. -/
def isInteger : PyVal → Bool
  | .int _ => true
  | _ => false

/-- Modelled from the spec: `pywincffi.core.checks.input_check` is not among
the provided sources (only its tests are).  Per the spec's InputValidator
contract, when `allowed_values` is supplied it must be an ordered sequence —
a non-sequence raises a programming-contract violation (an `AssertionError`,
as the tests expect, distinct from `InputError`) — and the value must be a
member of it, otherwise an `InputError` is raised carrying the argument name,
the received value, the `allowed_values` payload, and the message the tests
assert; when `allowed_types` is supplied the value must satisfy the accepted
type set, otherwise an `InputError` is raised. -/
def input_check (name : String) (value : PyVal) (allowedTypes : Option Accepted)
    (allowedValues : Option AVal) : Except PyErr Unit :=
  match allowedValues with
  | some (.nonseq _) => .error .assertionError
  | some (.seq xs) =>
    if value ∈ xs then .ok ()
    else
      .error (.inputError name value xs
        ("Expected value for " ++ name ++ " to be in " ++ pyReprTuple xs
          ++ ". Got " ++ pyRepr value ++ " instead."))
  | none =>
    match allowedTypes with
    | some .integerTypes =>
      if isInteger value then .ok ()
      else
        .error (.inputError name value []
          ("Expected " ++ name ++ " to be an instance of integer_types"))
    | none => .ok ()

/-- Modelled from the spec: `pywincffi.core.checks.error_check` is not among
the provided sources.  Per the spec's ErrorTranslator contract it reads the
last-error signal left by the most recent native call; on success it is a
no-op, on failure it raises a structured error carrying the operation name,
the raw code and a decoded message. -/
def error_check (function : String) (lastError : Int) : Except PyErr Unit :=
  if lastError = 0 then .ok ()
  else .error (.windowsAPIError function lastError
    ("Windows API error " ++ toString lastError))

/-- One invocation of a native symbol through the loaded library, with the
`ffi.cast` type name applied to each argument, in call order. -/
structure NativeCall where
  symbol : String
  args : List (String × Int)
deriving DecidableEq, Repr

/-- The native side consulted by a wrapped call: the value the invoked symbol
returns and the last-error signal it leaves behind. -/
structure SecEnv where
  nativeResult : Int
  lastError : Int
deriving DecidableEq, Repr

/-- The numeric payload `ffi.cast` extracts from an integer argument. -/
def toInt : PyVal → Int
  | .int n => n
  | _ => 0

/-- `pywincffi.shell32.security.CheckTokenMembership(TokenHandle, SidToCheck,
IsMember)`: three `input_check(..., integer_types)` gates, `dist.load()`,
then a call to `library.CreateToolhelp32Snapshot` with the arguments cast to
`HANDLE`, `PSID` and `DWORD` in that order, then
`error_check("CheckTokenMembership")`, returning the native result. -/
def CheckTokenMembership (env : Env) (senv : SecEnv) (st : St)
    (TokenHandle SidToCheck IsMember : PyVal) :
    Except PyErr Int × St × List NativeCall :=
  match input_check "TokenHandle" TokenHandle (some .integerTypes) none with
  | .error e => (.error e, st, [])
  | .ok _ =>
    match input_check "SidToCheck" SidToCheck (some .integerTypes) none with
    | .error e => (.error e, st, [])
    | .ok _ =>
      match input_check "IsMember" IsMember (some .integerTypes) none with
      | .error e => (.error e, st, [])
      | .ok _ =>
        let l := load env st
        match l.1 with
        | .error e => (.error e, l.2.1, [])
        | .ok _m =>
          let call : NativeCall :=
            { symbol := "CreateToolhelp32Snapshot"
            , args := [ ("HANDLE", toInt TokenHandle)
                      , ("PSID", toInt SidToCheck)
                      , ("DWORD", toInt IsMember) ] }
          let sid := senv.nativeResult
          match error_check "CheckTokenMembership" senv.lastError with
          | .error e => (.error e, l.2.1, [call])
          | .ok _ => (.ok sid, l.2.1, [call])

/-- Is the path an existing regular file in the filesystem map? -/
def isContentFile (fs : FS) (p : String) : Bool :=
  match fs.lookup p with
  | some (.file _) => true
  | _ => false

/-- Content of a fragment path (empty when it is not a regular file). -/
def fragmentContent (fs : FS) (p : String) : String :=
  match fs.lookup p with
  | some (.file s) => s
  | _ => ""

/-- The spec's description of assembly: the concatenation of the fragments'
contents in the listed order. -/
def concatContents (fs : FS) : List String → String
  | [] => ""
  | p :: ps => fragmentContent fs p ++ concatContents fs ps

/-! Concrete fixtures used by the witness theorems. -/

/-- A native module object. -/
def nm0 : NativeModule := { id := 7 }

/-- The cached module of a warm prebuilt process. -/
def m0 : Module := { module := nm0, mode := "prebuilt" }

/-- A filesystem holding every definition fragment and a built pyd. -/
def fs0 : FS :=
  [ ("pywincffi/core/cdefs/headers/constants.h", .file "CONST;"),
    ("pywincffi/core/cdefs/headers/structs.h", .file "STRUCT;"),
    ("pywincffi/core/cdefs/headers/functions.h", .file "FUNC;"),
    ("pywincffi/core/cdefs/sources/main.c", .file "MAIN;"),
    ("/tmp/pywincffi-abc/_pywincffi.pyd", .file "PYD") ]

/-- A cold process state: empty cache, stdout at the console, quiet streams. -/
def st0 : St :=
  { cache := none, fs := fs0, stdoutTarget := .console, stdoutBuf := ""
  , consoleOut := "", tempOut := "", tempExists := false, dupOpen := false
  , tempFdOpen := false, stderrContent := "" }

/-- An external world in which the prebuilt module is absent and the
on-demand build succeeds. -/
def env0 : Env :=
  { importPywincffi := .raise (.importError true)
  , ffiCompile := .ok "/tmp/pywincffi-abc/_pywincffi.pyd"
  , compileOutput := "build noise"
  , mkdtempPath := "/tmp/pywincffi-abc"
  , mkstempPath := "/tmp/capture"
  , hasExtensionFileLoader := true
  , hasImp := false
  , loadExtensionResult := .ok nm0
  , impLoadResult := .error .notImplementedError
  , rmtreeFails := false }

/-- An external world in which `import _pywincffi` finds the prebuilt module. -/
def envP : Env := { env0 with importPywincffi := .ok nm0 }

/-- An external world in which importing the prebuilt module raises an
`ImportError` that is not "module not found" (for example, a found extension
whose dynamic load fails). -/
def envX : Env := { env0 with importPywincffi := .raise (.importError false) }

/-- An external world in which importing the prebuilt module raises an error
that is not an `ImportError` at all. -/
def envY : Env := { env0 with importPywincffi := .raise (.osError 13) }

/-- A native side whose call succeeds and leaves a clear last-error signal. -/
def senvOK : SecEnv := { nativeResult := 1, lastError := 0 }

/-- A native side whose call leaves a failure last-error signal. -/
def senvBad : SecEnv := { nativeResult := 0, lastError := 5 }

/-- The `FFI` object `_ffi` assembles over `fs0`. -/
def f0 : FFIObj :=
  { source := "MAIN;", header := "CONST;STRUCT;FUNC;"
  , moduleName := MODULE_NAME, unicode := true }

/-- The assembly events `_ffi` emits over `fs0`. -/
def evs0 : List Event :=
  [ .fsOpen "pywincffi/core/cdefs/headers/constants.h"
  , .fsOpen "pywincffi/core/cdefs/headers/structs.h"
  , .fsOpen "pywincffi/core/cdefs/headers/functions.h"
  , .fsOpen "pywincffi/core/cdefs/sources/main.c" ]

/-! Helper lemmas shared by the claim theorems. -/

/-- Appending to the empty string is the identity. -/
theorem str_empty_append (s : String) : "" ++ s = s := by
  cases s
  rfl

/-- The hot path of `load`: a populated cache is returned as-is, with no
state change and no effects. -/
theorem load_cached (env : Env) (st : St) (m : Module) (h : st.cache = some m) :
    load env st = (.ok m, st, []) := by
  simp [load, h]

/-- Whenever `load` succeeds, the cache of the resulting state holds exactly
the returned module. -/
theorem load_ok_cache (env : Env) (st : St) (m : Module) (st1 : St)
    (tr : List Event) (h : load env st = (.ok m, st1, tr)) :
    st1.cache = some m := by
  unfold load at h
  split at h
  · rename_i m0 hm
    cases h
    exact hm
  · split at h
    · cases h
      rfl
    · rename_i e
      split at h
      · split at h
        · cases h
        · split at h
          · cases h
          · cases h
            rfl
      · cases h

/-! The claim theorems. -/

/-- C1: once a call to the load entry point has succeeded, every further call
— even under a changed external world — returns the identical cached Module
(the same handle and provenance), leaves the process state untouched, and
performs no acquisition work at all: the event trace is empty, so there is no
filesystem access, no compilation and no re-import. -/
theorem load_idempotent_after_success (env1 env2 : Env) (st st1 : St)
    (m : Module) (tr : List Event)
    (h : load env1 st = (.ok m, st1, tr)) :
    load env2 st1 = (.ok m, st1, []) :=
  load_cached env2 st1 m (load_ok_cache env1 st m st1 tr h)

/-- Witness for C1: after a successful prebuilt first call, the second call
returns the same cached module with no effects. -/
theorem load_idempotent_after_success_witness :
    load env0 { st0 with cache := some m0 } =
      (.ok m0, { st0 with cache := some m0 }, []) :=
  load_idempotent_after_success envP env0 st0 { st0 with cache := some m0 } m0
    [.importNative] (by decide)

/-- C7: `_import_path` on a path that is not an existing regular file fails
with `ResourceNotFoundError` naming that path, and no loader runs (the trace
is empty, so no module is loaded). -/
theorem import_path_missing_file (env : Env) (fs : FS) (path : String)
    (h : isfile fs path = false) :
    _import_path env fs path =
      (.error (.resourceNotFound ("Module path " ++ pyQuote path ++ " does not exist")),
       []) := by
  simp [_import_path, h]

/-- Witness for C7 at a concrete missing path. -/
theorem import_path_missing_file_witness :
    _import_path env0 fs0 "/tmp/nope.pyd" =
      (.error (.resourceNotFound
        ("Module path " ++ pyQuote "/tmp/nope.pyd" ++ " does not exist")), []) :=
  import_path_missing_file env0 fs0 "/tmp/nope.pyd" (by decide)

/-- C8: the allowed-values gate of `input_check`: a value outside the supplied
sequence raises `InputError` whose payload carries the `allowed_values`
sequence; a member passes silently; a non-sequence `allowed_values` raises the
programming-contract violation (`AssertionError`), which is a distinct error
kind from `InputError`. -/
theorem input_check_allowed_values_gate (name : String) (v w : PyVal)
    (xs : List PyVal) :
    (v ∈ xs → input_check name v none (some (.seq xs)) = .ok ())
    ∧ (v ∉ xs → input_check name v none (some (.seq xs)) =
        .error (.inputError name v xs
          ("Expected value for " ++ name ++ " to be in " ++ pyReprTuple xs
            ++ ". Got " ++ pyRepr v ++ " instead.")))
    ∧ input_check name v none (some (.nonseq w)) = .error .assertionError
    ∧ (∀ n2 v2 a2 m2, PyErr.assertionError ≠ PyErr.inputError n2 v2 a2 m2) := by
  refine ⟨fun hv => ?_, fun hv => ?_, rfl, fun n2 v2 a2 m2 hc => by cases hc⟩
  · simp [input_check, hv]
  · simp [input_check, hv]

/-- Witness for C8: the three test-suite scenarios, concretely. -/
theorem input_check_allowed_values_gate_witness :
    input_check "x" (.int 1) none (some (.seq [.int 1])) = .ok ()
    ∧ input_check "x" (.int 1) none (some (.seq [.int 2])) =
        .error (.inputError "x" (.int 1) [.int 2]
          ("Expected value for " ++ "x" ++ " to be in " ++ pyReprTuple [.int 2]
            ++ ". Got " ++ pyRepr (.int 1) ++ " instead."))
    ∧ input_check "x" (.int 1) none (some (.nonseq (.int 1))) =
        .error .assertionError :=
  ⟨(input_check_allowed_values_gate "x" (.int 1) (.int 1) [.int 1]).1 (by decide),
   (input_check_allowed_values_gate "x" (.int 1) (.int 1) [.int 2]).2.1 (by decide),
   (input_check_allowed_values_gate "x" (.int 1) (.int 1) [.int 2]).2.2.1⟩

/-- C9: once the process-wide cache is populated, any sequence of further load
calls and direct `Module(...)` constructions leaves the state — in particular
the cache value — exactly as it was, and the only observable effects are one
non-fatal `RuntimeWarning` per construction attempt; each such construction
still returns its new instance (it is not fatal), while the cache keeps the
first one. -/
theorem cache_single_population (env : Env) (ops : List Op) (st : St)
    (c : Module) (h : st.cache = some c) :
    runOps env ops st =
      (st, List.replicate (ops.countP isConstruct) Event.warnMulti)
    ∧ (∀ nm mode, moduleInit nm mode st =
        ({ module := nm, mode := mode }, st, [Event.warnMulti])) := by
  constructor
  · induction ops with
    | nil => simp [runOps]
    | cons op rest ih =>
      cases op with
      | loadOp =>
        simp [runOps, load_cached env st c h, ih, List.countP_cons, isConstruct]
      | constructOp nm mode =>
        simp [runOps, moduleInit, h, ih, List.countP_cons, isConstruct,
          List.replicate_succ]
  · intro nm mode
    simp [moduleInit, h]

/-- Witness for C9: a warm state, one load call and one construction attempt:
the state is unchanged and exactly one warning is emitted. -/
theorem cache_single_population_witness :
    runOps env0 [.loadOp, .constructOp nm0 "compiled"] { st0 with cache := some m0 } =
      ({ st0 with cache := some m0 }, [Event.warnMulti])
    ∧ moduleInit nm0 "compiled" { st0 with cache := some m0 } =
        ({ module := nm0, mode := "compiled" }, { st0 with cache := some m0 },
         [Event.warnMulti]) := by
  have h := cache_single_population env0 [.loadOp, .constructOp nm0 "compiled"]
    { st0 with cache := some m0 } m0 rfl
  exact ⟨by simpa using h.1, h.2 nm0 "compiled"⟩

/-- C4: a `_silence` scope around a region that writes `w` to the suppressed
stream and exits with `res` — normally (`res = .ok ()`) or by raising
(`res = .error e`) — always: propagates `res` unchanged, flushes the stream
(its buffer ends empty and the pre-region buffered bytes reach the original
destination), restores the stream's descriptor to its original target, closes
the capture descriptor and the duplicate, and leaves the capture file holding
exactly `w`, byte for byte.  The trace shows the restoration
(`restoreFd`) happening strictly before the duplicate is closed
(`closeDupFd`). -/
theorem silence_scoped_restore (st : St) (w : String) (res : Except PyErr Unit)
    (htgt : st.stdoutTarget = .console) :
    _silence (writeRegion w res) st =
      (res,
       { st with stdoutBuf := "", consoleOut := st.consoleOut ++ st.stdoutBuf,
                 tempOut := w, tempExists := true,
                 stdoutTarget := .console, dupOpen := false, tempFdOpen := false },
       [.dupFd .stdout, .flushStream .stdout, .mkstempEv, .redirectFd .stdout,
        .flushStream .stdout, .restoreFd .stdout, .fsyncEv, .closeTempFd,
        .closeDupFd])
    ∧ ([Event.dupFd .stdout, .flushStream .stdout, .mkstempEv, .redirectFd .stdout,
        .flushStream .stdout, .restoreFd .stdout, .fsyncEv, .closeTempFd,
        .closeDupFd] : List Event).indexOf (Event.restoreFd .stdout) <
        ([Event.dupFd .stdout, .flushStream .stdout, .mkstempEv, .redirectFd .stdout,
          .flushStream .stdout, .restoreFd .stdout, .fsyncEv, .closeTempFd,
          .closeDupFd] : List Event).indexOf Event.closeDupFd := by
  have h1 : _silence (writeRegion w res) st =
      (res,
       { st with stdoutBuf := "", consoleOut := st.consoleOut ++ st.stdoutBuf,
                 tempOut := w, tempExists := true,
                 stdoutTarget := .console, dupOpen := false, tempFdOpen := false },
       [.dupFd .stdout, .flushStream .stdout, .mkstempEv, .redirectFd .stdout,
        .flushStream .stdout, .restoreFd .stdout, .fsyncEv, .closeTempFd,
        .closeDupFd]) := by
    simp [_silence, writeRegion, flushStdout, htgt, str_empty_append]
  exact ⟨h1, by decide⟩

/-- Witness for C4: a raising region whose write is captured byte-for-byte
while the stream is restored. -/
theorem silence_scoped_restore_witness :
    _silence (writeRegion "Foobar" (.error (.buildError "some failure"))) st0 =
      (.error (.buildError "some failure"),
       { st0 with stdoutBuf := "", consoleOut := st0.consoleOut ++ st0.stdoutBuf,
                  tempOut := "Foobar", tempExists := true,
                  stdoutTarget := .console, dupOpen := false, tempFdOpen := false },
       [.dupFd .stdout, .flushStream .stdout, .mkstempEv, .redirectFd .stdout,
        .flushStream .stdout, .restoreFd .stdout, .fsyncEv, .closeTempFd,
        .closeDupFd]) :=
  (silence_scoped_restore st0 "Foobar" (.error (.buildError "some failure")) rfl).1

/-- When every listed path is a regular file, `_read` returns their
concatenation in order, opening each exactly once. -/
theorem read_all_present (fs : FS) :
    ∀ paths : List String, (∀ p ∈ paths, isContentFile fs p = true) →
      _read fs paths = (.ok (concatContents fs paths), paths.map Event.fsOpen) := by
  intro paths
  induction paths with
  | nil => intro _; simp [_read, concatContents]
  | cons p ps ih =>
    intro h
    have hp := h p (by simp)
    have hps : ∀ q ∈ ps, isContentFile fs q = true := fun q hq => h q (by simp [hq])
    unfold isContentFile at hp
    cases hl : fs.lookup p with
    | none => rw [hl] at hp; simp at hp
    | some node =>
      cases node with
      | dir => rw [hl] at hp; simp at hp
      | file s =>
        simp [_read, readFile, hl, ih hps, concatContents, fragmentContent]

/-- When a prefix of the paths are regular files and the next one is missing,
`_read` fails with `ResourceNotFoundError` naming the missing path — in
particular no (partial) blob is returned. -/
theorem read_first_missing (fs : FS) :
    ∀ (pre : List String) (p : String) (post : List String),
      (∀ q ∈ pre, isContentFile fs q = true) → fs.lookup p = none →
      (_read fs (pre ++ p :: post)).1 =
        .error (.resourceNotFound ("Failed to locate " ++ p)) := by
  intro pre
  induction pre with
  | nil =>
    intro p post _ hp
    simp [_read, readFile, hp, ENOENT]
  | cons q pre ih =>
    intro p post hall hp
    have hq := hall q (by simp)
    have hpre : ∀ r ∈ pre, isContentFile fs r = true := fun r hr => hall r (by simp [hr])
    unfold isContentFile at hq
    cases hl : fs.lookup q with
    | none => rw [hl] at hq; simp at hq
    | some node =>
      cases node with
      | dir => rw [hl] at hq; simp at hq
      | file s =>
        have hrest := ih p post hpre hp
        cases hread : _read fs (pre ++ p :: post) with
        | mk r evs =>
          rw [hread] at hrest
          simp at hrest
          subst hrest
          simp [_read, readFile, hl, hread]

/-- C6: assembly over the fragment lists is all-or-nothing: when every listed
fragment is an existing regular file, `_read` returns exactly the
concatenation of their contents in the listed order; when some listed
fragment is missing, `_read` raises `ResourceNotFoundError` naming that
fragment's path, so no partial concatenated blob is ever returned. -/
theorem read_assembles_or_fails (fs : FS) (paths pre post : List String)
    (p : String) :
    ((∀ q ∈ paths, isContentFile fs q = true) →
      _read fs paths = (.ok (concatContents fs paths), paths.map Event.fsOpen))
    ∧ ((∀ q ∈ pre, isContentFile fs q = true) → fs.lookup p = none →
      (_read fs (pre ++ p :: post)).1 =
        .error (.resourceNotFound ("Failed to locate " ++ p))) :=
  ⟨read_all_present fs paths, read_first_missing fs pre p post⟩

/-- Witness for C6: the fixed header list assembles in order on `fs0`; a
missing fragment after an existing one fails naming the missing path. -/
theorem read_assembles_or_fails_witness :
    _read fs0 HEADER_FILES =
      (.ok (concatContents fs0 HEADER_FILES), HEADER_FILES.map Event.fsOpen)
    ∧ (_read fs0 ["pywincffi/core/cdefs/headers/constants.h", "missing.h"]).1 =
        .error (.resourceNotFound ("Failed to locate " ++ "missing.h")) :=
  ⟨(read_assembles_or_fails fs0 HEADER_FILES
      ["pywincffi/core/cdefs/headers/constants.h"] [] "missing.h").1 (by decide),
   (read_assembles_or_fails fs0 HEADER_FILES
      ["pywincffi/core/cdefs/headers/constants.h"] [] "missing.h").2
     (by decide) (by decide)⟩

/-- Every event `_read` emits is a filesystem open of some path. -/
theorem read_events_fsOpen (fs : FS) :
    ∀ ps : List String, ∀ e ∈ (_read fs ps).2, ∃ p, e = Event.fsOpen p := by
  intro ps
  induction ps with
  | nil => simp [_read]
  | cons p ps ih =>
    intro e he
    cases hr : readFile fs p with
    | ok s =>
      cases hread : _read fs ps with
      | mk r evs =>
        cases r with
        | ok rest =>
          rw [hread] at ih
          simp [_read, hr, hread] at he
          rcases he with rfl | hmem
          · exact ⟨p, rfl⟩
          · exact ih e (by simpa using hmem)
        | error e2 =>
          rw [hread] at ih
          simp [_read, hr, hread] at he
          rcases he with rfl | hmem
          · exact ⟨p, rfl⟩
          · exact ih e (by simpa using hmem)
    | error err =>
      cases err <;> simp [_read, hr] at he <;>
        first
          | exact ⟨p, he⟩
          | (rename_i n
             by_cases hn : n = ENOENT <;> simp [hn] at he <;> exact ⟨p, he⟩)

/-- A list of filesystem-open events contains no occurrence of any other
event. -/
theorem count_zero_of_fsOpen (l : List Event)
    (h : ∀ e ∈ l, ∃ p, e = Event.fsOpen p) (x : Event)
    (hx : ∀ p, x ≠ Event.fsOpen p) : l.count x = 0 := by
  rw [List.count_eq_zero]
  intro hmem
  obtain ⟨p, rfl⟩ := h x hmem
  exact hx p rfl

/-- A successful `_ffi` emits only filesystem-open events. -/
theorem ffi_ok_events (fs : FS) (f : FFIObj) (evs : List Event)
    (h : _ffi fs = (.ok f, evs)) : ∀ e ∈ evs, ∃ p, e = Event.fsOpen p := by
  cases h1 : _read fs HEADER_FILES with
  | mk r1 evs1 =>
    cases h2 : _read fs SOURCE_FILES with
    | mk r2 evs2 =>
      unfold _ffi at h
      rw [h1, h2] at h
      cases r1 with
      | error e1 => simp at h
      | ok header =>
        cases r2 with
        | error e2 => simp at h
        | ok source =>
          simp at h
          obtain ⟨-, hevs⟩ := h
          intro e he
          rw [← hevs] at he
          rcases List.mem_append.mp he with ha | hb
          · exact read_events_fsOpen fs HEADER_FILES e (by rw [h1]; exact ha)
          · exact read_events_fsOpen fs SOURCE_FILES e (by rw [h2]; exact hb)

/-- A successful on-demand build: the result, the cache field left untouched,
and the exact effect sequence (one external build, capture-file removal, one
dynamic load of the built artifact, then the best-effort directory removal). -/
theorem compileBody_ok (env : Env) (dir : String) (st : St) (pyd : String)
    (nm : NativeModule)
    (hcomp : env.ffiCompile = .ok pyd)
    (hefl : env.hasExtensionFileLoader = true)
    (hload : env.loadExtensionResult = .ok nm)
    (hfile : isfile st.fs pyd = true) :
    (_compileBody env dir st).1 = .ok nm
    ∧ (_compileBody env dir st).2.1.cache = st.cache
    ∧ (_compileBody env dir st).2.2 =
        [.dupFd .stdout, .flushStream .stdout, .mkstempEv, .redirectFd .stdout,
         .ffiCompileEv, .flushStream .stdout, .restoreFd .stdout, .fsyncEv,
         .closeTempFd, .closeDupFd, .removeFile env.mkstempPath,
         .loadExtension pyd, .rmtreeEv dir] := by
  cases htgt : st.stdoutTarget <;>
    simp [_compileBody, _silence, compileRegion, flushStdout, htgt, hcomp,
      _import_path, hfile, hefl, hload]

/-- C2: a cold call to the load entry point.  When the prebuilt module
resolves, the cache is populated with provenance `"prebuilt"` and the trace is
exactly the import — no assembly, no compilation, no pyd loading.  When
resolution fails with `ImportError`, the fallback assembles the definitions
(the `_ffi` events `evs`), compiles exactly once, loads the built artifact
exactly once, and populates the cache with provenance `"compiled"`. -/
theorem load_cold_acquisition (env : Env) (st : St) (nm : NativeModule)
    (pyd : String) (f : FFIObj) (evs : List Event)
    (hc : st.cache = none)
    (hffi : _ffi st.fs = (.ok f, evs))
    (hcomp : env.ffiCompile = .ok pyd)
    (hefl : env.hasExtensionFileLoader = true)
    (hload : env.loadExtensionResult = .ok nm)
    (hfile : isfile st.fs pyd = true) :
    (∀ nm2, env.importPywincffi = .ok nm2 →
      load env st = (.ok { module := nm2, mode := "prebuilt" },
        { st with cache := some { module := nm2, mode := "prebuilt" } },
        [.importNative]))
    ∧ (∀ b, env.importPywincffi = .raise (.importError b) →
        (load env st).1 = .ok { module := nm, mode := "compiled" }
        ∧ (load env st).2.1.cache = some { module := nm, mode := "compiled" }
        ∧ (load env st).2.2 = .importNative :: (evs ++
            [.mkdtempEv env.mkdtempPath, .dupFd .stdout, .flushStream .stdout,
             .mkstempEv, .redirectFd .stdout, .ffiCompileEv,
             .flushStream .stdout, .restoreFd .stdout, .fsyncEv, .closeTempFd,
             .closeDupFd, .removeFile env.mkstempPath, .loadExtension pyd,
             .rmtreeEv env.mkdtempPath])
        ∧ ((load env st).2.2).count Event.ffiCompileEv = 1
        ∧ ((load env st).2.2).count (Event.loadExtension pyd) = 1) := by
  constructor
  · intro nm2 himp
    simp [load, hc, himp, moduleInit]
  · intro b himp
    obtain ⟨h1, h2, h3⟩ :=
      compileBody_ok env env.mkdtempPath st pyd nm hcomp hefl hload hfile
    have hz1 : evs.count Event.ffiCompileEv = 0 :=
      count_zero_of_fsOpen evs (ffi_ok_events st.fs f evs hffi) _
        (fun p h => by cases h)
    have hz2 : evs.count (Event.loadExtension pyd) = 0 :=
      count_zero_of_fsOpen evs (ffi_ok_events st.fs f evs hffi) _
        (fun p h => by cases h)
    cases hcb : _compileBody env env.mkdtempPath st with
    | mk r1 rest =>
      cases rest with
      | mk st1 evs1 =>
        rw [hcb] at h1 h2 h3
        simp at h1 h2 h3
        subst h1
        subst h3
        have hnone : st1.cache = none := by rw [h2, hc]
        refine ⟨?_, ?_, ?_, ?_, ?_⟩ <;>
          simp [load, hc, himp, isImportError, hffi, _compile, hcb, moduleInit,
            hnone, List.count_cons, List.count_append, hz1, hz2]

/-- Witness for C2: over `fs0`, with the prebuilt module absent, the cold call
compiles once, loads the built pyd once, and caches provenance `"compiled"`;
with the prebuilt module present, the call caches provenance `"prebuilt"`
with no other effect. -/
theorem load_cold_acquisition_witness :
    (load env0 st0).1 = .ok { module := nm0, mode := "compiled" }
    ∧ (load env0 st0).2.1.cache = some { module := nm0, mode := "compiled" }
    ∧ ((load env0 st0).2.2).count Event.ffiCompileEv = 1
    ∧ ((load env0 st0).2.2).count
        (Event.loadExtension "/tmp/pywincffi-abc/_pywincffi.pyd") = 1
    ∧ load envP st0 = (.ok { module := nm0, mode := "prebuilt" },
        { st0 with cache := some { module := nm0, mode := "prebuilt" } },
        [.importNative]) := by
  have h := (load_cold_acquisition env0 st0 nm0 "/tmp/pywincffi-abc/_pywincffi.pyd"
    f0 evs0 rfl (by decide) rfl rfl rfl (by decide)).2 true rfl
  have hp := (load_cold_acquisition envP st0 nm0 "/tmp/pywincffi-abc/_pywincffi.pyd"
    f0 evs0 rfl (by decide) rfl rfl rfl (by decide)).1 nm0 rfl
  exact ⟨h.1, h.2.1, h.2.2.2.1, h.2.2.2.2, hp⟩

/-- C3 counterexample: in `envX` the import of the prebuilt module raises an
`ImportError` that is not "module not found" (`moduleNotFound = false`), yet
`load` does not propagate it: it runs the compile fallback and succeeds with
a compiled-on-demand module — refuting the claim that only the specific
"prebuilt module not found" failure triggers the fallback. -/
theorem load_nonnotfound_importerror_falls_back :
    envX.importPywincffi = .raise (.importError false)
    ∧ (load envX st0).1 = .ok { module := nm0, mode := "compiled" }
    ∧ (load envX st0).1 ≠ .error (.importError false)
    ∧ Event.ffiCompileEv ∈ (load envX st0).2.2 := by
  decide

/-- C3 as amended: the recovery is keyed on the `ImportError` class, caught
broadly: any `ImportError` raised while importing the prebuilt module — not
only "module not found" — triggers the compile fallback and behaves exactly
like the module-not-found case, while any non-`ImportError` error propagates
to the caller unchanged, with no fallback work performed. -/
theorem load_importerror_catch (env : Env) (st : St) (e : PyErr)
    (hc : st.cache = none)
    (himp : env.importPywincffi = .raise e) :
    (isImportError e = false → load env st = (.error e, st, [.importNative]))
    ∧ (isImportError e = true →
        load env st =
          load { env with importPywincffi := .raise (.importError true) } st) := by
  constructor
  · intro hf
    simp [load, hc, himp, hf]
  · intro ht
    cases e with
    | importError b =>
      simp [load, hc, himp, isImportError, _compile, _compileBody, _silence,
        compileRegion, _import_path]
    | resourceNotFound msg => simp [isImportError] at ht
    | windowsAPIError fn code msg => simp [isImportError] at ht
    | inputError n v a msg => simp [isImportError] at ht
    | assertionError => simp [isImportError] at ht
    | notImplementedError => simp [isImportError] at ht
    | osError n => simp [isImportError] at ht
    | buildError tag => simp [isImportError] at ht

/-- Witness for the amended C3: a non-`ImportError` propagates untouched; a
non-not-found `ImportError` behaves exactly like the module-not-found case. -/
theorem load_importerror_catch_witness :
    load envY st0 = (.error (.osError 13), st0, [.importNative])
    ∧ load envX st0 =
        load { envX with importPywincffi := .raise (.importError true) } st0 :=
  ⟨(load_importerror_catch envY st0 (.osError 13) rfl rfl).1 rfl,
   (load_importerror_catch envX st0 (.importError false) rfl rfl).2 rfl⟩

/-- C5: `_compile` suppresses only the standard output stream — no event ever
duplicates or redirects the diagnostic stream, whose content is left alone on
success.  On build failure the captured standard-output content is replayed
to the diagnostic stream (with `print`'s newline) and the failure is
re-raised.  On success the capture file is deleted, the temp directory is
removed best-effort strictly after the artifact is loaded, and the removal
outcome cannot affect the result. -/
theorem compile_suppresses_stdout_only (env : Env) (st : St)
    (htgt : st.stdoutTarget = .console) :
    (∀ e, env.ffiCompile = .error e →
      (_compile env none st).1 = .error e
      ∧ (_compile env none st).2.1.stderrContent =
          st.stderrContent ++ env.compileOutput ++ "\n"
      ∧ (_compile env none st).2.1.stdoutTarget = .console
      ∧ Event.writeStderr env.compileOutput ∈ (_compile env none st).2.2
      ∧ Event.redirectFd .stderr ∉ (_compile env none st).2.2
      ∧ Event.dupFd .stderr ∉ (_compile env none st).2.2)
    ∧ (∀ pyd nm, env.ffiCompile = .ok pyd →
        env.hasExtensionFileLoader = true →
        env.loadExtensionResult = .ok nm →
        isfile st.fs pyd = true →
        (_compile env none st).1 = .ok nm
        ∧ (_compile env none st).2.1.tempExists = false
        ∧ (_compile env none st).2.2 =
            [.mkdtempEv env.mkdtempPath, .dupFd .stdout, .flushStream .stdout,
             .mkstempEv, .redirectFd .stdout, .ffiCompileEv,
             .flushStream .stdout, .restoreFd .stdout, .fsyncEv, .closeTempFd,
             .closeDupFd, .removeFile env.mkstempPath, .loadExtension pyd,
             .rmtreeEv env.mkdtempPath]
        ∧ (∀ bb, (_compile { env with rmtreeFails := bb } none st).1 = .ok nm)
        ∧ (_compile env none st).2.1.stderrContent = st.stderrContent
        ∧ Event.redirectFd .stderr ∉ (_compile env none st).2.2) := by
  constructor
  · intro e he
    refine ⟨?_, ?_, ?_, ?_, ?_, ?_⟩ <;>
      simp [_compile, _compileBody, _silence, compileRegion, flushStdout, htgt,
        he, str_empty_append]
  · intro pyd nm hcomp hefl hload hfile
    refine ⟨?_, ?_, ?_, fun bb => ?_, ?_, ?_⟩ <;>
      simp [_compile, _compileBody, _silence, compileRegion, flushStdout, htgt,
        hcomp, _import_path, hfile, hefl, hload]

/-- Witness for C5: the failing build replays its captured output to the
diagnostic stream and re-raises; the successful build deletes the capture
file and removes the temp directory after the load. -/
theorem compile_suppresses_stdout_only_witness :
    (_compile { env0 with ffiCompile := .error (.buildError "cc failed") } none st0).1 =
      .error (.buildError "cc failed")
    ∧ (_compile { env0 with ffiCompile := .error (.buildError "cc failed") } none st0).2.1.stderrContent =
        st0.stderrContent ++ "build noise" ++ "\n"
    ∧ (_compile env0 none st0).1 = .ok nm0
    ∧ (_compile env0 none st0).2.1.tempExists = false := by
  have hf := (compile_suppresses_stdout_only
    { env0 with ffiCompile := .error (.buildError "cc failed") } st0 rfl).1
    (.buildError "cc failed") rfl
  have hs := (compile_suppresses_stdout_only env0 st0 rfl).2
    "/tmp/pywincffi-abc/_pywincffi.pyd" nm0 rfl rfl rfl (by decide)
  exact ⟨hf.1, hf.2.1, hs.1, hs.2.1⟩

/-- C10: with all three integer input checks passing and a loaded module in
the cache, the wrapped `CheckTokenMembership` invokes the native symbol
`CreateToolhelp32Snapshot` — not a symbol named `CheckTokenMembership` — with
the arguments cast to `HANDLE`, `PSID` and `DWORD` in that order, then runs
error translation under the operation name `"CheckTokenMembership"`, and
returns the native call's result unchanged on success. -/
theorem checkTokenMembership_calls_snapshot (env : Env) (senv : SecEnv)
    (st : St) (m : Module) (a b c : Int)
    (hm : st.cache = some m) :
    (CheckTokenMembership env senv st (.int a) (.int b) (.int c)).2.2 =
      [{ symbol := "CreateToolhelp32Snapshot",
         args := [("HANDLE", a), ("PSID", b), ("DWORD", c)] }]
    ∧ ("CreateToolhelp32Snapshot" : String) ≠ "CheckTokenMembership"
    ∧ (senv.lastError = 0 →
        (CheckTokenMembership env senv st (.int a) (.int b) (.int c)).1 =
          .ok senv.nativeResult)
    ∧ (senv.lastError ≠ 0 →
        (CheckTokenMembership env senv st (.int a) (.int b) (.int c)).1 =
          .error (.windowsAPIError "CheckTokenMembership" senv.lastError
            ("Windows API error " ++ toString senv.lastError)))
    ∧ (CheckTokenMembership env senv st (.int a) (.int b) (.int c)).2.1 = st := by
  have hl := load_cached env st m hm
  refine ⟨?_, by decide, fun h0 => ?_, fun hne => ?_, ?_⟩
  · by_cases h0 : senv.lastError = 0 <;>
      simp [CheckTokenMembership, input_check, isInteger, hl, error_check,
        toInt, h0]
  · simp [CheckTokenMembership, input_check, isInteger, hl, error_check,
      toInt, h0]
  · simp [CheckTokenMembership, input_check, isInteger, hl, error_check,
      toInt, hne]
  · by_cases h0 : senv.lastError = 0 <;>
      simp [CheckTokenMembership, input_check, isInteger, hl, error_check,
        toInt, h0]

/-- Witness for C10: concretely, the successful native call returns its result
unchanged, the failing one surfaces the operation name
`"CheckTokenMembership"`, and the recorded invocation names
`CreateToolhelp32Snapshot` with the three casts in order. -/
theorem checkTokenMembership_calls_snapshot_witness :
    (CheckTokenMembership env0 senvOK { st0 with cache := some m0 }
      (.int 10) (.int 20) (.int 30)).2.2 =
      [{ symbol := "CreateToolhelp32Snapshot",
         args := [("HANDLE", 10), ("PSID", 20), ("DWORD", 30)] }]
    ∧ (CheckTokenMembership env0 senvOK { st0 with cache := some m0 }
        (.int 10) (.int 20) (.int 30)).1 = .ok senvOK.nativeResult
    ∧ (CheckTokenMembership env0 senvBad { st0 with cache := some m0 }
        (.int 10) (.int 20) (.int 30)).1 =
        .error (.windowsAPIError "CheckTokenMembership" senvBad.lastError
          ("Windows API error " ++ toString senvBad.lastError)) := by
  have h1 := checkTokenMembership_calls_snapshot env0 senvOK
    { st0 with cache := some m0 } m0 10 20 30 rfl
  have h2 := checkTokenMembership_calls_snapshot env0 senvBad
    { st0 with cache := some m0 } m0 10 20 30 rfl
  exact ⟨h1.1, h1.2.2.1 rfl, h2.2.2.2.1 (by decide)⟩

end PyWinCFFI
